import Mathlib

/-!
Shallow embedding of the settings/welcome UI slice of the repository:
the tab registry (`getSettingsTabs`), the tab router of `SettingsView`
(active-tab state, inbound message handling, compact-mode width
observation, active-content resolution), the fire-and-forget remote-call
handlers of `WelcomeView` and `SettingsView`, and the
`generateDocsWithCline` command helper.

React `useState` state is modelled as explicit record state passed
through pure transition functions; DOM side effects of the
message-handler fallback path (scroll + transient highlight) are
modelled as a transition on an explicit DOM state; the gRPC calls are
modelled by their outcome (`RpcResult`) being passed to the handler,
whose observable behaviour is the resulting UI state plus the list of
diagnostic-log entries (`console.error`).
-/

/-- Symbolic model of the `LucideIcon` component references used by the
tab registry. -/
inductive LucideIcon where
  | slidersHorizontal
  | checkCheck
  | squareMousePointer
  | squareTerminal
  | flaskConical
  | wrench
  | info
deriving DecidableEq, Repr

/-- The `SettingsTab` interface of `SettingsView` (WelcomeView.tsx):
`{ id, name, tooltipText, headerText, icon, hidden? }`.  The optional
`hidden` field defaults to absent/false. -/
structure SettingsTab where
  id : String
  name : String
  tooltipText : String
  headerText : String
  icon : LucideIcon
  hidden : Bool := false
deriving DecidableEq, Repr

/-- `getSettingsTabs` builds the ordered tab registry from the i18n
lookup `t`.  The module-level global `IS_DEV = process.env.IS_DEV` is an
input of the module environment, so it is an explicit parameter here; it
gates only the `hidden` flag of the `debug` tab. -/
def getSettingsTabs (t : String → String) (IS_DEV : Bool) : List SettingsTab :=
  [ { id := "api-config"
    , name := t ("settings.tabs.api_configuration")
    , tooltipText := t ("settings.tabs.api_configuration")
    , headerText := t ("settings.tabs.api_configuration")
    , icon := LucideIcon.slidersHorizontal }
  , { id := "features"
    , name := t ("settings.tabs.features")
    , tooltipText := t ("settings.tabs.features")
    , headerText := t ("settings.tabs.features")
    , icon := LucideIcon.checkCheck }
  , { id := "browser"
    , name := t ("settings.tabs.browser")
    , tooltipText := t ("settings.tabs.browser")
    , headerText := t ("settings.tabs.browser")
    , icon := LucideIcon.squareMousePointer }
  , { id := "terminal"
    , name := t ("settings.tabs.terminal")
    , tooltipText := t ("settings.tabs.terminal")
    , headerText := t ("settings.tabs.terminal")
    , icon := LucideIcon.squareTerminal }
  , { id := "debug"
    , name := t ("settings.tabs.debug")
    , tooltipText := t ("settings.tabs.debug")
    , headerText := t ("settings.tabs.debug")
    , icon := LucideIcon.flaskConical
    , hidden := !IS_DEV }
  , { id := "general"
    , name := t ("settings.tabs.general")
    , tooltipText := t ("settings.tabs.general")
    , headerText := t ("settings.tabs.general")
    , icon := LucideIcon.wrench }
  , { id := "about"
    , name := t ("settings.tabs.about")
    , tooltipText := t ("settings.tabs.about")
    , headerText := t ("settings.tabs.about")
    , icon := LucideIcon.info } ]

/-- The i18n keys `getSettingsTabs` passes to the localize function. -/
def settingsTabKeys : List String :=
  [ "settings.tabs.api_configuration", "settings.tabs.features"
  , "settings.tabs.browser", "settings.tabs.terminal"
  , "settings.tabs.debug", "settings.tabs.general", "settings.tabs.about" ]

/-- Symbolic model of the seven statically imported section components
that `TAB_CONTENT_MAP` dispatches to. -/
inductive SectionComponent where
  | apiConfigurationSection
  | generalSettingsSection
  | featureSettingsSection
  | browserSettingsSection
  | terminalSettingsSection
  | aboutSection
  | debugSection
deriving DecidableEq, Repr

/-- `TAB_CONTENT_MAP`, the string-keyed component dispatch object of
`SettingsView`, in its source order. -/
def TAB_CONTENT_MAP : List (String × SectionComponent) :=
  [ ("api-config", SectionComponent.apiConfigurationSection)
  , ("general", SectionComponent.generalSettingsSection)
  , ("features", SectionComponent.featureSettingsSection)
  , ("browser", SectionComponent.browserSettingsSection)
  , ("terminal", SectionComponent.terminalSettingsSection)
  , ("about", SectionComponent.aboutSection)
  , ("debug", SectionComponent.debugSection) ]

/-- The router state of `SettingsView`: the `activeTab` and
`isCompactMode` `useState` cells (the spec's `RouterState`
`{ activeId, compact }`). -/
structure RouterState where
  activeTab : String
  isCompactMode : Bool
deriving DecidableEq, Repr

/-- `handleTabChange` (the spec's `setActive`): sets `activeTab`
unconditionally via `setActiveTab(tabId)`. -/
def handleTabChange (tabId : String) (s : RouterState) : RouterState :=
  { s with activeTab := tabId }

/-- `ActiveContent` (the spec's `resolveActive`): looks `activeTab` up
in `TAB_CONTENT_MAP` and yields `none` when the key is absent
(`if (!Component) return null`). -/
def ActiveContent (s : RouterState) : Option SectionComponent :=
  (TAB_CONTENT_MAP.find? (fun p => p.1 == s.activeTab)).map (fun p => p.2)

/-- The `grpc_response.message` payload of an inbound window message:
`{ key, value }`; a missing `value` is modelled by the empty string,
matching the falsiness test `if (!tabId) return`. -/
structure GrpcMessage where
  key : String
  value : String
deriving DecidableEq, Repr

/-- An inbound `ExtensionMessage` as far as `handleMessage` inspects it:
its `type` and the optional `grpc_response?.message` payload. -/
structure ExtensionMessage where
  type : String
  grpc_response : Option GrpcMessage
deriving DecidableEq, Repr

/-- The spec's navigate message, in the concrete wire shape the code
tests for: `type == "grpc_response"`, `key == "scrollToSettings"`,
`value` holding the target. -/
def navigateMessage (target : String) : ExtensionMessage :=
  { type := "grpc_response"
  , grpc_response := some { key := "scrollToSettings", value := target } }

/-- A DOM element as far as the scroll-fallback path touches it:
its id, whether it has been scrolled into view, and the two inline
style properties the handler writes. -/
structure DomElement where
  id : String
  scrolledIntoView : Bool
  transition : String
  backgroundColor : String
deriving DecidableEq, Repr

/-- The document, as far as `document.getElementById` and the scroll
fallback can observe it. -/
structure Dom where
  elements : List DomElement
deriving DecidableEq, Repr

/-- The mutation the scroll-fallback path performs on the anchor
element: `scrollIntoView`, then `style.transition` and
`style.backgroundColor` are assigned the highlight values. -/
def highlightElement (tabId : String) (e : DomElement) : DomElement :=
  if e.id == tabId then
    { e with scrolledIntoView := true
           , transition := "background-color 0.5s ease"
           , backgroundColor := "var(--vscode-textPreformat-background)" }
  else e

/-- `handleMessage` of `SettingsView`, as a transition on the router
state and the DOM: early-return on a non-`grpc_response` type, a
missing payload, a key other than `scrollToSettings`, or a falsy
`value`; a `value` matching a registry tab id sets `activeTab`;
otherwise the `requestAnimationFrame` fallback looks the id up in the
document and, when found, scrolls and highlights it (the 1200 ms timer
later resets the background and touches nothing else). -/
def handleMessage (tabs : List SettingsTab) (event : ExtensionMessage)
    (s : RouterState) (dom : Dom) : RouterState × Dom :=
  if event.type != "grpc_response" then (s, dom) else
  match event.grpc_response with
  | none => (s, dom)
  | some grpcMessage =>
    if grpcMessage.key != "scrollToSettings" then (s, dom) else
    let tabId := grpcMessage.value
    if tabId == "" then (s, dom) else
    if tabs.any (fun tab => tab.id == tabId) then
      ({ s with activeTab := tabId }, dom)
    else
      match dom.elements.find? (fun e => e.id == tabId) with
      | none => (s, dom)
      | some _ => (s, { elements := dom.elements.map (highlightElement tabId) })

/-- The debounced width callback `checkCompactMode` of the
`ResizeObserver` effect: after the 100 ms debounce it runs
`setIsCompactMode(width < 500)` on the observed content width. -/
def checkCompactMode (width : Int) (s : RouterState) : RouterState :=
  { s with isCompactMode := decide (width < 500) }

/-- The rendered tab list: `SETTINGS_TABS.filter((tab) => !tab.hidden)`
inside `TabList`. -/
def renderedTabs (tabs : List SettingsTab) : List SettingsTab :=
  tabs.filter (fun tab => !tab.hidden)

/-- Outcome of an awaited gRPC call: resolution or rejection with an
error rendered as a string. -/
inductive RpcResult where
  | ok
  | err (msg : String)
deriving DecidableEq, Repr

/-- The `WelcomeView` component state this slice can mutate. -/
structure WelcomeState where
  apiErrorMessage : Option String
  showApiOptions : Bool
deriving DecidableEq, Repr

/-- `handleLogin` of `WelcomeView`: fires `accountLoginClicked` and on
rejection only appends a `console.error` diagnostic entry. -/
def handleLogin (result : RpcResult) (s : WelcomeState) (log : List String) :
    WelcomeState × List String :=
  match result with
  | RpcResult.ok => (s, log)
  | RpcResult.err e => (s, log ++ ["Failed to get login URL: " ++ e])

/-- `handleSubmit` of `WelcomeView`: awaits `setWelcomeViewCompleted`
and on rejection only appends a `console.error` diagnostic entry. -/
def handleSubmit (result : RpcResult) (s : WelcomeState) (log : List String) :
    WelcomeState × List String :=
  match result with
  | RpcResult.ok => (s, log)
  | RpcResult.err e =>
    (s, log ++ ["Failed to update API configuration or complete welcome view: " ++ e])

/-- `handleResetState` of `SettingsView`: awaits `resetState` with the
optional `resetGlobalState` flag and on rejection only appends a
`console.error` diagnostic entry. -/
def handleResetState (resetGlobalState : Option Bool) (result : RpcResult)
    (s : RouterState) (log : List String) : RouterState × List String :=
  match resetGlobalState, result with
  | _, RpcResult.ok => (s, log)
  | _, RpcResult.err e => (s, log ++ ["Failed to reset state: " ++ e])

/-- The editor selection carried by a `CommandContext`. -/
structure Selection where
  fileMention : String
  language : String
  content : String
deriving DecidableEq, Repr

/-- The command context passed to `generateDocsWithCline`. -/
structure CommandContext where
  selection : Selection
deriving DecidableEq, Repr

/-- The template-literal prompt `generateDocsWithCline` builds from the
selection. -/
def generateDocsPrompt (selection : Selection) : String :=
  "Generate documentation for the following code from " ++ selection.fileMention
    ++ " in Vietnamese:\n\n```" ++ selection.language ++ "\n"
    ++ selection.content ++ "\n```"

/-- `generateDocsWithCline`, observed through the sequence of prompts it
passes to `controller.initTask`: it awaits exactly one call, with the
built prompt. -/
def generateDocsWithCline (context : CommandContext) : List String :=
  [generateDocsPrompt context.selection]

/-- `sub` occurs contiguously inside `s`. -/
def IsSubstringOf (sub s : String) : Prop :=
  ∃ pre post, s = pre ++ sub ++ post

/-- The registry's id sequence is a fixed constant: it does not depend
on the locale or on the dev flag. -/
theorem getSettingsTabs_ids (t : String → String) (d : Bool) :
    (getSettingsTabs t d).map (fun tab => tab.id)
      = ["api-config", "features", "browser", "terminal", "debug", "general", "about"] := rfl

/-- Unfolding of `handleMessage` on a navigate-shaped message: the
type, payload and key guards all pass definitionally. -/
theorem handleMessage_navigate (tabs : List SettingsTab) (target : String)
    (s : RouterState) (dom : Dom) :
    handleMessage tabs (navigateMessage target) s dom =
      (if target == "" then (s, dom)
       else if tabs.any (fun tab => tab.id == target) then
         ({ s with activeTab := target }, dom)
       else
         match dom.elements.find? (fun e => e.id == target) with
         | none => (s, dom)
         | some _ => (s, { elements := dom.elements.map (highlightElement target) })) := rfl

/-- C1: for every section id in the registry returned by
`getSettingsTabs`, `handleTabChange(id)` followed by the
`ActiveContent` lookup yields exactly the component `TAB_CONTENT_MAP`
associates with that id. -/
theorem C1_setActive_resolveActive (t : String → String) (d : Bool) (id : String)
    (s : RouterState) (h : id ∈ (getSettingsTabs t d).map (fun tab => tab.id)) :
    ∃ c, TAB_CONTENT_MAP.find? (fun p => p.1 == id) = some (id, c) ∧
      ActiveContent (handleTabChange id s) = some c := by
  rw [getSettingsTabs_ids] at h
  simp only [List.mem_cons, List.not_mem_nil, or_false] at h
  rcases h with rfl | rfl | rfl | rfl | rfl | rfl | rfl <;> exact ⟨_, rfl, rfl⟩

/-- C1 witness: concrete instantiation at the id "terminal". -/
theorem C1_setActive_resolveActive_witness :
    ∃ c, TAB_CONTENT_MAP.find? (fun p => p.1 == "terminal") = some ("terminal", c) ∧
      ActiveContent (handleTabChange ("terminal")
        { activeTab := "about", isCompactMode := false }) = some c :=
  C1_setActive_resolveActive (fun k => k) false ("terminal")
    { activeTab := "about", isCompactMode := false } (by decide)

/-- C2: an inbound navigate message whose target is a registry section
id sets the router's `activeTab` to that target. -/
theorem C2_navigate_known_target (t : String → String) (d : Bool) (target : String)
    (s : RouterState) (dom : Dom)
    (h : target ∈ (getSettingsTabs t d).map (fun tab => tab.id)) :
    (handleMessage (getSettingsTabs t d) (navigateMessage target) s dom).1.activeTab
      = target := by
  rw [getSettingsTabs_ids] at h
  simp only [List.mem_cons, List.not_mem_nil, or_false] at h
  rcases h with rfl | rfl | rfl | rfl | rfl | rfl | rfl <;> rfl

/-- C2 witness: navigating to "debug" from a state showing "about". -/
theorem C2_navigate_known_target_witness :
    (handleMessage (getSettingsTabs (fun k => k) false) (navigateMessage ("debug"))
        { activeTab := "about", isCompactMode := true } { elements := [] }).1.activeTab
      = "debug" :=
  C2_navigate_known_target (fun k => k) false ("debug")
    { activeTab := "about", isCompactMode := true } { elements := [] } (by decide)

/-- C3: an inbound navigate message whose target is neither a registry
section id nor the id of any DOM element leaves the router state and
the DOM completely unchanged. -/
theorem C3_navigate_unknown_noop (t : String → String) (d : Bool) (target : String)
    (s : RouterState) (dom : Dom)
    (hreg : (getSettingsTabs t d).any (fun tab => tab.id == target) = false)
    (hdom : dom.elements.find? (fun e => e.id == target) = none) :
    handleMessage (getSettingsTabs t d) (navigateMessage target) s dom = (s, dom) := by
  rw [handleMessage_navigate]
  by_cases h0 : (target == "") = true
  · rw [if_pos h0]
  · rw [if_neg h0, if_neg (by rw [hreg]; exact Bool.false_ne_true), hdom]

/-- C3 witness: a navigate message to a missing section over an empty
document. -/
theorem C3_navigate_unknown_noop_witness :
    handleMessage (getSettingsTabs (fun k => k) true) (navigateMessage ("missing-section"))
        { activeTab := "features", isCompactMode := false } { elements := [] }
      = ({ activeTab := "features", isCompactMode := false }, { elements := [] }) :=
  C3_navigate_unknown_noop (fun k => k) true ("missing-section")
    { activeTab := "features", isCompactMode := false } { elements := [] }
    (by decide) rfl

/-- C4: `handleTabChange` stores any non-empty id without validating it
against the registry, and for an id outside the registry the
`ActiveContent` lookup then returns `none` rather than failing. -/
theorem C4_setActive_unvalidated (t : String → String) (d : Bool) (id : String)
    (s : RouterState) (hne : id ≠ "") :
    (handleTabChange id s).activeTab = id ∧
      (id ∉ (getSettingsTabs t d).map (fun tab => tab.id) →
        ActiveContent (handleTabChange id s) = none) := by
  refine ⟨rfl, fun hmem => ?_⟩
  rw [getSettingsTabs_ids] at hmem
  simp only [List.mem_cons, List.not_mem_nil, or_false, not_or] at hmem
  have hfind : TAB_CONTENT_MAP.find? (fun p => p.1 == id) = none := by
    rw [List.find?_eq_none]
    simp only [TAB_CONTENT_MAP, List.mem_cons, List.not_mem_nil, or_false]
    rintro x (rfl | rfl | rfl | rfl | rfl | rfl | rfl) <;>
      simp only [beq_iff_eq] <;> rintro rfl <;> simp_all
  simp only [ActiveContent, handleTabChange, hfind, Option.map_none']

/-- C4 witness: storing the unknown id "bogus" and resolving it. -/
theorem C4_setActive_unvalidated_witness :
    ActiveContent (handleTabChange ("bogus")
      { activeTab := "about", isCompactMode := true }) = none :=
  (C4_setActive_unvalidated (fun k => k) true ("bogus")
    { activeTab := "about", isCompactMode := true } (by decide)).2 (by decide)

/-- C5: after the debounce fires, an observed width strictly below the
compact threshold (500 in the code) yields `isCompactMode = true`, and a
width strictly above it yields `isCompactMode = false`. -/
theorem C5_compact_threshold (width : Int) (s : RouterState) :
    (width < 500 → (checkCompactMode width s).isCompactMode = true) ∧
      (500 < width → (checkCompactMode width s).isCompactMode = false) := by
  constructor
  · intro h
    simp [checkCompactMode, h]
  · intro h
    simp only [checkCompactMode, decide_eq_false_iff_not]
    omega

/-- C5 witness: the spec's example widths 480 and 600. -/
theorem C5_compact_threshold_witness :
    (checkCompactMode 480 { activeTab := "api-config", isCompactMode := false }).isCompactMode
        = true
      ∧ (checkCompactMode 600 { activeTab := "api-config", isCompactMode := true }).isCompactMode
        = false :=
  ⟨(C5_compact_threshold 480 { activeTab := "api-config", isCompactMode := false }).1
      (by decide),
   (C5_compact_threshold 600 { activeTab := "api-config", isCompactMode := true }).2
      (by decide)⟩

/-- `highlightElement` does not change an element's id. -/
theorem highlightElement_id (tabId : String) (e : DomElement) :
    (highlightElement tabId e).id = e.id := by
  unfold highlightElement
  split <;> rfl

/-- Applying the highlight mutation twice is the same as applying it
once. -/
theorem highlightElement_idem (tabId : String) (e : DomElement) :
    highlightElement tabId (highlightElement tabId e) = highlightElement tabId e := by
  unfold highlightElement
  by_cases h : (e.id == tabId) = true <;> simp [h]

/-- Highlighting a whole element list twice equals highlighting it
once. -/
theorem map_highlightElement_idem (tabId : String) (l : List DomElement) :
    (l.map (highlightElement tabId)).map (highlightElement tabId)
      = l.map (highlightElement tabId) := by
  induction l with
  | nil => rfl
  | cons e l ih => simp [highlightElement_idem, ih]

/-- Searching for an id in a highlighted list mirrors the search in the
original list, because highlighting preserves ids. -/
theorem find?_map_highlightElement (tabId : String) (l : List DomElement) :
    (l.map (highlightElement tabId)).find? (fun e => e.id == tabId)
      = (l.find? (fun e => e.id == tabId)).map (highlightElement tabId) := by
  induction l with
  | nil => rfl
  | cons e l ih =>
    simp only [List.map_cons, List.find?_cons, highlightElement_id]
    by_cases h : (e.id == tabId) = true <;> simp [h, ih]

/-- C6: inbound-message handling is idempotent: handling the same
message a second time, from the state and DOM the first handling
produced, changes nothing further. -/
theorem C6_handleMessage_idempotent (tabs : List SettingsTab)
    (event : ExtensionMessage) (s : RouterState) (dom : Dom) :
    handleMessage tabs event (handleMessage tabs event s dom).1
        (handleMessage tabs event s dom).2
      = handleMessage tabs event s dom := by
  obtain ⟨ty, gr⟩ := event
  cases h1 : (ty != "grpc_response") with
  | true => simp [handleMessage, h1]
  | false =>
    rcases gr with _ | ⟨key, value⟩
    · simp [handleMessage, h1]
    · cases h2 : (key != "scrollToSettings") with
      | true => simp [handleMessage, h1, h2]
      | false =>
        cases h3 : (value == "") with
        | true => simp [handleMessage, h1, h2, h3]
        | false =>
          cases h4 : (tabs.any (fun tab => tab.id == value)) with
          | true => simp [handleMessage, h1, h2, h3, h4]
          | false =>
            cases hfind : dom.elements.find? (fun e => e.id == value) with
            | none => simp [handleMessage, h1, h2, h3, h4, hfind]
            | some e0 =>
              have hfind2 : ((dom.elements.map (highlightElement value)).find?
                  (fun e => e.id == value)) = some (highlightElement value e0) := by
                rw [find?_map_highlightElement, hfind]; rfl
              simp only [handleMessage, h1, h2, h3, h4, hfind, hfind2,
                Bool.false_eq_true, if_false, Bool.true_eq_false]
              simp [map_highlightElement_idem]
              exact fun a _ => highlightElement_idem value a

/-- C7 counterexample: with the same localize function, flipping the
module-level `IS_DEV` flag changes the output of `getSettingsTabs` (the
`hidden` flag of the debug tab), so the output does not depend on the
locale alone. -/
theorem C7_counterexample :
    ¬ (getSettingsTabs (fun _ => "L") true = getSettingsTabs (fun _ => "L") false) := by
  decide

/-- C7 (amended): `getSettingsTabs` is a pure function of the localize
function and the dev flag: it performs no side effects, and its output
depends on nothing other than the localize function's values at the tab
label keys and the `IS_DEV` flag. -/
theorem C7_getSettingsTabs_locale_and_dev (t t2 : String → String) (d : Bool)
    (h : ∀ k ∈ settingsTabKeys, t k = t2 k) :
    getSettingsTabs t d = getSettingsTabs t2 d := by
  have h1 := h ("settings.tabs.api_configuration") (by decide)
  have h2 := h ("settings.tabs.features") (by decide)
  have h3 := h ("settings.tabs.browser") (by decide)
  have h4 := h ("settings.tabs.terminal") (by decide)
  have h5 := h ("settings.tabs.debug") (by decide)
  have h6 := h ("settings.tabs.general") (by decide)
  have h7 := h ("settings.tabs.about") (by decide)
  simp [getSettingsTabs, h1, h2, h3, h4, h5, h6, h7]

/-- C7 witness: two extensionally equal localize functions give the
same registry. -/
theorem C7_getSettingsTabs_locale_and_dev_witness :
    getSettingsTabs (fun _ => "L") true
      = getSettingsTabs (fun k => if k == k then "L" else "M") true :=
  C7_getSettingsTabs_locale_and_dev (fun _ => "L")
    (fun k => if k == k then "L" else "M") true (by intro k _; simp)

/-- C8: each remote-call handler, on rejection, leaves its component
state exactly as it was and only appends one diagnostic-log entry that
carries the error. -/
theorem C8_remote_failure_log_and_continue (e : String) (ws : WelcomeState)
    (g : Option Bool) (rs : RouterState) (log : List String) :
    ((handleLogin (RpcResult.err e) ws log).1 = ws
      ∧ ∃ entry, (handleLogin (RpcResult.err e) ws log).2 = log ++ [entry]
          ∧ IsSubstringOf e entry)
    ∧ ((handleSubmit (RpcResult.err e) ws log).1 = ws
      ∧ ∃ entry, (handleSubmit (RpcResult.err e) ws log).2 = log ++ [entry]
          ∧ IsSubstringOf e entry)
    ∧ ((handleResetState g (RpcResult.err e) rs log).1 = rs
      ∧ ∃ entry, (handleResetState g (RpcResult.err e) rs log).2 = log ++ [entry]
          ∧ IsSubstringOf e entry) := by
  refine ⟨⟨rfl, "Failed to get login URL: " ++ e, rfl,
      "Failed to get login URL: ", "", ?_⟩,
    ⟨rfl, "Failed to update API configuration or complete welcome view: " ++ e, rfl,
      "Failed to update API configuration or complete welcome view: ", "", ?_⟩,
    rfl, "Failed to reset state: " ++ e, rfl, "Failed to reset state: ", "", ?_⟩ <;>
    rw [String.append_empty]

/-- C9: with the dev flag off, the debug tab is absent from the
rendered tab list, yet a navigate message targeting "debug" still
activates it and `ActiveContent` still renders the debug section. -/
theorem C9_hidden_tab_still_navigable (t : String → String) (s : RouterState) (dom : Dom) :
    (("debug" : String) ∉ (renderedTabs (getSettingsTabs t false)).map (fun tab => tab.id))
      ∧ (handleMessage (getSettingsTabs t false) (navigateMessage ("debug"))
          s dom).1.activeTab = "debug"
      ∧ ActiveContent (handleMessage (getSettingsTabs t false) (navigateMessage ("debug"))
          s dom).1 = some SectionComponent.debugSection := by
  refine ⟨?_, rfl, rfl⟩
  have hids : (renderedTabs (getSettingsTabs t false)).map (fun tab => tab.id)
      = ["api-config", "features", "browser", "terminal", "general", "about"] := rfl
  rw [hids]
  decide

/-- C10: `generateDocsWithCline` issues exactly one `initTask` call,
and its prompt contains the selection's file mention, language and
content verbatim and the Vietnamese-language request. -/
theorem C10_generateDocs_single_task_prompt (context : CommandContext) :
    (generateDocsWithCline context).length = 1
      ∧ IsSubstringOf context.selection.fileMention
          ((generateDocsWithCline context).headD (""))
      ∧ IsSubstringOf context.selection.language
          ((generateDocsWithCline context).headD (""))
      ∧ IsSubstringOf context.selection.content
          ((generateDocsWithCline context).headD (""))
      ∧ IsSubstringOf ("in Vietnamese")
          ((generateDocsWithCline context).headD ("")) := by
  refine ⟨rfl, ?_, ?_, ?_, ?_⟩
  · refine ⟨"Generate documentation for the following code from ",
      " in Vietnamese:\n\n```" ++ context.selection.language ++ "\n"
        ++ context.selection.content ++ "\n```", ?_⟩
    show generateDocsPrompt context.selection = _
    simp [generateDocsPrompt, String.append_assoc]
  · refine ⟨"Generate documentation for the following code from "
        ++ context.selection.fileMention ++ " in Vietnamese:\n\n```",
      "\n" ++ context.selection.content ++ "\n```", ?_⟩
    show generateDocsPrompt context.selection = _
    simp [generateDocsPrompt, String.append_assoc]
  · refine ⟨"Generate documentation for the following code from "
        ++ context.selection.fileMention ++ " in Vietnamese:\n\n```"
        ++ context.selection.language ++ "\n",
      "\n```", ?_⟩
    show generateDocsPrompt context.selection = _
    simp [generateDocsPrompt, String.append_assoc]
  · refine ⟨"Generate documentation for the following code from "
        ++ context.selection.fileMention ++ " ",
      ":\n\n```" ++ context.selection.language ++ "\n"
        ++ context.selection.content ++ "\n```", ?_⟩
    show generateDocsPrompt context.selection = _
    have key : ∀ X : String, (" in Vietnamese:\n\n```" : String) ++ X
        = " " ++ ("in Vietnamese" ++ (":\n\n```" ++ X)) := by
      intro X
      rw [← String.append_assoc, ← String.append_assoc]
      rfl
    simp only [generateDocsPrompt, String.append_assoc, key]
